import Mathlib

/-!
Verification development for the napi-nbng socket session layer
(`src/nanomsg.rs`, main revision).  The embedding mirrors the Rust
`SocketWrapper`: its four fields, the `connect` / `send` / `recv` /
`close` / `is_connect` operations, and the background receive loop
spawned by `recv`.  Transport outcomes (socket allocation, option
setting, dial, send, receive) are supplied by explicit environment
records, and the loop is modelled as a function over the sequence of
per-iteration observations (the value of the `receiving` flag at the
check, the value of the `is_closing` flag when an error is handled,
and the outcome of the blocking receive).
-/

namespace NapiNbng

/-- Transport-level errors distinguished by the code (`nng::Error`):
the timeout case is matched explicitly, everything else falls into a
catch-all; `closed` is singled out because the spec discusses it. -/
inductive NngErr where
  | timedOut
  | closed
  | other (code : Nat)
deriving DecidableEq, Repr

/-- State of `SocketWrapper` (src/nanomsg.rs lines 12-17): an optional
socket (modelled by an identifier), the stored url, and the two shared
atomic flags. -/
structure WrapperState where
  socket : Option Nat
  url : Option String
  receiving : Bool
  isClosing : Bool
deriving DecidableEq, Repr

/-- `SocketWrapper::new` (lines 21-29): no socket, no url, both flags
false. -/
def SocketWrapper.new : WrapperState :=
  { socket := none, url := none, receiving := false, isClosing := false }

/-- Outcomes of the fallible transport steps taken by `connect`:
socket allocation, the two option applications, and the dial. -/
structure ConnectEnv where
  newSocket : Option Nat
  setRecvTimeoutOk : Bool
  setSendTimeoutOk : Bool
  dialOk : Bool
deriving DecidableEq, Repr

/-- `SocketWrapper::connect` (lines 31-75): create a socket, apply the
receive / send timeouts when nonzero, dial; every failure returns early
with an error and leaves `self` untouched; success stores the socket
and the url and returns `true`. -/
def SocketWrapper.connect (s : WrapperState) (url : String)
    (recvTimeout sendTimeout : Nat) (env : ConnectEnv) :
    WrapperState × Except String Bool :=
  match env.newSocket with
  | none => (s, Except.error "Socket creation failed")
  | some sock =>
    if recvTimeout ≠ 0 ∧ env.setRecvTimeoutOk = false then
      (s, Except.error "Failed to set receive timeout")
    else if sendTimeout ≠ 0 ∧ env.setSendTimeoutOk = false then
      (s, Except.error "Failed to set send timeout")
    else if env.dialOk = false then
      (s, Except.error "Connection failed")
    else
      ({ s with socket := some sock, url := some url }, Except.ok true)

/-- Transport calls `send` can perform, recorded in order. -/
inductive IOAction where
  | sendMsg (payload : List Nat)
  | recvMsg
deriving DecidableEq, Repr

/-- Outcomes the transport hands to `send`: whether the submission is
accepted, and the result of the paired blocking receive. -/
structure SendEnv where
  sendErr : Option NngErr
  recvResult : Except NngErr (List Nat)
deriving Repr

/-- `SocketWrapper::send` (lines 77-105): with no socket, fail with
"Socket not connected" and perform no transport call; otherwise submit
the message, then perform one blocking receive for the reply,
classifying a timeout separately from other receive errors. -/
def SocketWrapper.send (s : WrapperState) (message : List Nat)
    (env : SendEnv) : Except String (List Nat) × List IOAction :=
  match s.socket with
  | none => (Except.error "Socket not connected", [])
  | some _ =>
    match env.sendErr with
    | some _ => (Except.error "Send error", [IOAction.sendMsg message])
    | none =>
      match env.recvResult with
      | Except.error NngErr.timedOut =>
          (Except.error "Receive timeout",
           [IOAction.sendMsg message, IOAction.recvMsg])
      | Except.error (NngErr.other _) =>
          (Except.error "Receive error",
           [IOAction.sendMsg message, IOAction.recvMsg])
      | Except.error NngErr.closed =>
          (Except.error "Receive error",
           [IOAction.sendMsg message, IOAction.recvMsg])
      | Except.ok r =>
          (Except.ok r, [IOAction.sendMsg message, IOAction.recvMsg])

/-- `SocketWrapper::close` (lines 144-156): when a socket is present,
take it, store `false` into `receiving`, store `true` into
`is_closing`, close the socket and take the url; otherwise only log. -/
def SocketWrapper.close (s : WrapperState) : WrapperState :=
  match s.socket with
  | some _ =>
      { socket := none, url := none, receiving := false, isClosing := true }
  | none => s

/-- `SocketWrapper::is_connect` (lines 158-161). -/
def SocketWrapper.is_connect (s : WrapperState) : Bool :=
  s.socket.isSome

/-- What one blocking receive inside the loop yields. -/
inductive RecvOutcome where
  | msg (payload : List Nat)
  | err (e : NngErr)
deriving DecidableEq, Repr

/-- One iteration of the receive loop as the thread observes it: the
value the `receiving` atomic has at the check before the receive, the
value the `is_closing` atomic has when an error is being handled, and
the outcome of the blocking receive itself.  The flags are shared
atomics, so each iteration may observe fresh values. -/
structure LoopIter where
  receivingFlag : Bool
  closingFlag : Bool
  outcome : RecvOutcome
deriving DecidableEq, Repr

/-- Observable actions of the loop body: a threadsafe-function callback
invocation, or one of the two stderr logs. -/
inductive LoopEvent where
  | callback (payload : List Nat)
  | logTimeout
  | logError (e : NngErr)
deriving DecidableEq, Repr

/-- How a run of the loop ended (or that the supplied observation
sequence ran out with the loop still going). -/
inductive LoopExit where
  | stopped
  | silentExit
  | ranOut
deriving DecidableEq, Repr

/-- The loop body of `SocketWrapper::recv` (lines 116-136): check the
`receiving` flag and break when it is false; on a message, invoke the
callback; on `TimedOut`, log and continue; on any other error, return
silently when `is_closing` is set, otherwise log the error and
continue. -/
def runLoop : List LoopIter → List LoopEvent × LoopExit
  | [] => ([], LoopExit.ranOut)
  | it :: rest =>
    if it.receivingFlag then
      match it.outcome with
      | RecvOutcome.msg p =>
          let r := runLoop rest
          (LoopEvent.callback p :: r.1, r.2)
      | RecvOutcome.err e =>
          if e = NngErr.timedOut then
            let r := runLoop rest
            (LoopEvent.logTimeout :: r.1, r.2)
          else if it.closingFlag then
            ([], LoopExit.silentExit)
          else
            let r := runLoop rest
            (LoopEvent.logError e :: r.1, r.2)
    else ([], LoopExit.stopped)

/-- `SocketWrapper::recv` (lines 108-142) as seen by the caller: it
always returns `Ok(())` immediately, and the spawned thread runs the
loop only when a socket was present at spawn time (otherwise it just
logs and exits, producing no events). -/
def recvSpawn (s : WrapperState) (sched : List LoopIter) :
    Except String Unit × List LoopEvent :=
  (Except.ok (), if s.socket.isSome then (runLoop sched).1 else [])

/-- Number of callback invocations among the loop events. -/
def countCallbacks (evs : List LoopEvent) : Nat :=
  evs.countP fun ev =>
    match ev with
    | LoopEvent.callback _ => true
    | _ => false

/-- An outcome the loop survives without touching the closing branch:
a delivered message or a receive timeout. -/
def benign : RecvOutcome → Bool
  | RecvOutcome.msg _ => true
  | RecvOutcome.err NngErr.timedOut => true
  | RecvOutcome.err _ => false

end NapiNbng

namespace NapiNbng

/-- A run whose every flag check reads false produces no events: the
loop breaks at its first check. -/
theorem runLoop_halt_of_flags_false (post : List LoopIter)
    (h : ∀ it ∈ post, it.receivingFlag = false) :
    (runLoop post).1 = [] := by
  cases post with
  | nil => rfl
  | cons it rest =>
      have hf := h it (List.mem_cons_self it rest)
      simp [runLoop, hf]

/-- Once every remaining flag check reads false, the run produces
exactly the events of the iterations that came before. -/
theorem runLoop_append_halt (pre post : List LoopIter)
    (h : ∀ it ∈ post, it.receivingFlag = false) :
    (runLoop (pre ++ post)).1 = (runLoop pre).1 := by
  induction pre with
  | nil => simpa using runLoop_halt_of_flags_false post h
  | cons it rest ih =>
      by_cases hf : it.receivingFlag
      · cases ho : it.outcome with
        | msg p => simp [runLoop, hf, ho, ih]
        | err e =>
            by_cases he : e = NngErr.timedOut
            · simp [runLoop, hf, ho, he, ih]
            · by_cases hc : it.closingFlag
              · simp [runLoop, hf, ho, he, hc]
              · simp [runLoop, hf, ho, he, hc, ih]
      · simp [runLoop, hf]

/-- A run that neither stopped nor exited composes with whatever
iterations follow. -/
theorem runLoop_append_of_ranOut (pre post : List LoopIter)
    (h : (runLoop pre).2 = LoopExit.ranOut) :
    runLoop (pre ++ post)
      = ((runLoop pre).1 ++ (runLoop post).1, (runLoop post).2) := by
  induction pre with
  | nil => simp [runLoop]
  | cons it rest ih =>
      by_cases hf : it.receivingFlag
      · cases ho : it.outcome with
        | msg p =>
            have h2 : (runLoop rest).2 = LoopExit.ranOut := by
              simpa [runLoop, hf, ho] using h
            simp [runLoop, hf, ho, ih h2]
        | err e =>
            by_cases he : e = NngErr.timedOut
            · have h2 : (runLoop rest).2 = LoopExit.ranOut := by
                simpa [runLoop, hf, ho, he] using h
              simp [runLoop, hf, ho, he, ih h2]
            · by_cases hc : it.closingFlag
              · exact absurd h (by simp [runLoop, hf, ho, he, hc])
              · have h2 : (runLoop rest).2 = LoopExit.ranOut := by
                  simpa [runLoop, hf, ho, he, hc] using h
                simp [runLoop, hf, ho, he, hc, ih h2]
      · exact absurd h (by simp [runLoop, hf])

/-- A run of benign iterations (flag true, message or timeout) neither
stops nor exits. -/
theorem runLoop_ranOut_of_benign (pre : List LoopIter)
    (h : ∀ it ∈ pre, it.receivingFlag = true ∧ benign it.outcome = true) :
    (runLoop pre).2 = LoopExit.ranOut := by
  induction pre with
  | nil => rfl
  | cons it rest ih =>
      obtain ⟨hf, hb⟩ := h it (List.mem_cons_self it rest)
      have hrest : ∀ x ∈ rest, x.receivingFlag = true ∧ benign x.outcome = true :=
        fun x hx => h x (List.mem_cons_of_mem it hx)
      cases ho : it.outcome with
      | msg p => simp [runLoop, hf, ho, ih hrest]
      | err e =>
          cases e with
          | timedOut => simp [runLoop, hf, ho, ih hrest]
          | closed => rw [ho] at hb; exact absurd hb (by simp [benign])
          | other n => rw [ho] at hb; exact absurd hb (by simp [benign])

/-- Appending one more iteration adds at most one callback invocation
to the run. -/
theorem countCallbacks_append_single (pre : List LoopIter) (x : LoopIter) :
    countCallbacks (runLoop (pre ++ [x])).1
      ≤ countCallbacks (runLoop pre).1 + 1 := by
  induction pre with
  | nil =>
      by_cases hf : x.receivingFlag
      · cases ho : x.outcome with
        | msg p =>
            simp [runLoop, hf, ho, countCallbacks, List.countP_cons,
              List.countP_nil]
        | err e =>
            by_cases he : e = NngErr.timedOut
            · simp [runLoop, hf, ho, he, countCallbacks, List.countP_cons,
                List.countP_nil]
            · by_cases hc : x.closingFlag
              · simp [runLoop, hf, ho, he, hc, countCallbacks,
                  List.countP_nil]
              · simp [runLoop, hf, ho, he, hc, countCallbacks,
                  List.countP_cons, List.countP_nil]
      · simp [runLoop, hf, countCallbacks, List.countP_nil]
  | cons it rest ih =>
      by_cases hf : it.receivingFlag
      · cases ho : it.outcome with
        | msg p =>
            simp only [List.cons_append, runLoop, hf, ho, if_true,
              countCallbacks, List.countP_cons] at ih ⊢
            simpa [countCallbacks] using Nat.add_le_add_right ih 1
        | err e =>
            by_cases he : e = NngErr.timedOut
            · simp only [List.cons_append, runLoop, hf, ho, he, if_true,
                countCallbacks, List.countP_cons] at ih ⊢
              simpa [countCallbacks] using ih
            · by_cases hc : it.closingFlag
              · simp [runLoop, hf, ho, he, hc, countCallbacks,
                  List.countP_nil]
              · simp only [List.cons_append, runLoop, hf, ho, he, hc,
                  if_true, if_false, countCallbacks, List.countP_cons] at ih ⊢
                simpa [countCallbacks] using ih
      · simp [runLoop, hf, countCallbacks, List.countP_nil]

end NapiNbng

namespace NapiNbng

/-- An environment in which every transport step of `connect`
succeeds. -/
def goodEnv : ConnectEnv :=
  { newSocket := some 1, setRecvTimeoutOk := true,
    setSendTimeoutOk := true, dialOk := true }

/-- An environment in which the dial step of `connect` fails. -/
def badDialEnv : ConnectEnv :=
  { newSocket := some 1, setRecvTimeoutOk := true,
    setSendTimeoutOk := true, dialOk := false }

/-- A wrapper that has successfully connected. -/
def connectedState : WrapperState :=
  (SocketWrapper.connect SocketWrapper.new "tcp://127.0.0.1:5555"
    1000 1000 goodEnv).1

/-- C1: `close` stores false into the `receiving` flag before it
returns, and once the stop is signaled — so that every later flag check
reads false — the loop produces no events beyond those of the
iterations up to and including the receive in flight at signaling time,
and that in-flight receive contributes at most one further callback
invocation. -/
theorem receive_loop_cancellation (s : WrapperState)
    (pre : List LoopIter) (inflight : LoopIter) (post : List LoopIter)
    (hs : s.socket.isSome = true)
    (hpost : ∀ it ∈ post, it.receivingFlag = false) :
    (SocketWrapper.close s).receiving = false
    ∧ (runLoop (pre ++ inflight :: post)).1
        = (runLoop (pre ++ [inflight])).1
    ∧ countCallbacks (runLoop (pre ++ [inflight])).1
        ≤ countCallbacks (runLoop pre).1 + 1 := by
  refine ⟨?_, ?_, countCallbacks_append_single pre inflight⟩
  · obtain ⟨k, hk⟩ := Option.isSome_iff_exists.mp hs
    simp [SocketWrapper.close, hk]
  · have hsplit : pre ++ inflight :: post = (pre ++ [inflight]) ++ post := by
      simp
    rw [hsplit, runLoop_append_halt _ _ hpost]

/-- Witness for C1 at a connected wrapper, a two-iteration run and one
already-signaled iteration. -/
theorem receive_loop_cancellation_witness :
    (connectedState.socket.isSome = true
      ∧ ∀ it ∈ [LoopIter.mk false false (RecvOutcome.msg [7])],
          it.receivingFlag = false)
    ∧ ((SocketWrapper.close connectedState).receiving = false
      ∧ (runLoop ([LoopIter.mk true false (RecvOutcome.msg [1])]
            ++ LoopIter.mk true false (RecvOutcome.msg [2])
              :: [LoopIter.mk false false (RecvOutcome.msg [7])])).1
          = (runLoop ([LoopIter.mk true false (RecvOutcome.msg [1])]
              ++ [LoopIter.mk true false (RecvOutcome.msg [2])])).1
      ∧ countCallbacks (runLoop ([LoopIter.mk true false (RecvOutcome.msg [1])]
            ++ [LoopIter.mk true false (RecvOutcome.msg [2])])).1
          ≤ countCallbacks
              (runLoop [LoopIter.mk true false (RecvOutcome.msg [1])]).1 + 1) :=
  ⟨⟨by decide, by decide⟩,
   receive_loop_cancellation connectedState
     [LoopIter.mk true false (RecvOutcome.msg [1])]
     (LoopIter.mk true false (RecvOutcome.msg [2]))
     [LoopIter.mk false false (RecvOutcome.msg [7])]
     (by decide) (by decide)⟩

/-- C2 counterexample: with `is_closing` false, a `closed` receive
error neither invokes the callback nor exits the loop: the loop logs
the error and performs another receive, here observing a second
`closed` error, with zero callback invocations in the whole run. -/
theorem closed_error_continues_counterexample :
    runLoop [LoopIter.mk true false (RecvOutcome.err NngErr.closed),
             LoopIter.mk true false (RecvOutcome.err NngErr.closed)]
      = ([LoopEvent.logError NngErr.closed,
          LoopEvent.logError NngErr.closed], LoopExit.ranOut)
    ∧ countCallbacks [LoopEvent.logError NngErr.closed,
        LoopEvent.logError NngErr.closed] = 0 := by
  decide

/-- C2 amended: on a `closed` receive error the loop never invokes the
callback; it exits silently exactly when `is_closing` is set, and
otherwise logs the error and keeps looping. -/
theorem closed_error_behavior (rest : List LoopIter) :
    runLoop (LoopIter.mk true true (RecvOutcome.err NngErr.closed) :: rest)
      = ([], LoopExit.silentExit)
    ∧ runLoop (LoopIter.mk true false (RecvOutcome.err NngErr.closed) :: rest)
      = (LoopEvent.logError NngErr.closed :: (runLoop rest).1,
         (runLoop rest).2) := by
  constructor <;> simp [runLoop]

/-- C3 counterexample: a non-timeout, non-closed error observed while
the session is not closing produces a stderr log entry and no callback
invocation, contradicting the claim that the callback is invoked with
the failure reason. -/
theorem other_error_no_callback_counterexample :
    runLoop [LoopIter.mk true false (RecvOutcome.err (NngErr.other 5))]
      = ([LoopEvent.logError (NngErr.other 5)], LoopExit.ranOut)
    ∧ countCallbacks [LoopEvent.logError (NngErr.other 5)] = 0 := by
  decide

/-- C3 amended: for a non-timeout, non-closed transport error, when the
session is not marked closing the loop logs the error to stderr
(without invoking the callback) and continues looping; when it is
marked closing the loop exits silently. -/
theorem other_error_behavior (n : Nat) (rest : List LoopIter) :
    runLoop (LoopIter.mk true false (RecvOutcome.err (NngErr.other n)) :: rest)
      = (LoopEvent.logError (NngErr.other n) :: (runLoop rest).1,
         (runLoop rest).2)
    ∧ runLoop (LoopIter.mk true true (RecvOutcome.err (NngErr.other n)) :: rest)
      = ([], LoopExit.silentExit) := by
  constructor <;> simp [runLoop]

/-- C4 counterexample: `recv` on a never-connected wrapper does not
fail — it returns `Ok(())` — and its spawned thread produces no
events. -/
theorem recv_not_connected_counterexample :
    (recvSpawn SocketWrapper.new
        [LoopIter.mk true false (RecvOutcome.msg [1])]).1 = Except.ok ()
    ∧ (recvSpawn SocketWrapper.new
        [LoopIter.mk true false (RecvOutcome.msg [1])]).2 = [] := by
  constructor <;> rfl

/-- C4 amended: `recv(callback)` returns `Ok(())` immediately for every
wrapper state, connected or not (it returns unit, not a cancellation
handle, and never an error); when the wrapper holds no socket the
spawned thread performs no receives and invokes no callbacks. -/
theorem recv_returns_immediately (s : WrapperState) (sched : List LoopIter) :
    (recvSpawn s sched).1 = Except.ok ()
    ∧ (recvSpawn { s with socket := none } sched).2 = [] := by
  constructor
  · rfl
  · simp [recvSpawn]

end NapiNbng

namespace NapiNbng

/-- C5 counterexample: after `close`, calling `connect` again with a
successful dial re-establishes a connected session on the same wrapper:
`is_connect` returns true again and the call reports success. -/
theorem reconnect_after_close_counterexample :
    SocketWrapper.is_connect (SocketWrapper.close connectedState) = false
    ∧ (SocketWrapper.connect (SocketWrapper.close connectedState)
        "tcp://127.0.0.1:5555" 1000 1000 goodEnv).2 = Except.ok true
    ∧ SocketWrapper.is_connect
        (SocketWrapper.connect (SocketWrapper.close connectedState)
          "tcp://127.0.0.1:5555" 1000 1000 goodEnv).1 = true := by
  refine ⟨rfl, rfl, rfl⟩

/-- C5 amended: a closed wrapper can be reconnected in place — whenever
every transport step succeeds, `connect` on the closed wrapper reports
success and leaves `is_connect` true — although the `is_closing` flag
keeps the value `close` gave it. -/
theorem reconnect_after_close (s : WrapperState) (url : String)
    (rt st : Nat) (env : ConnectEnv)
    (h1 : env.newSocket.isSome = true) (h2 : env.setRecvTimeoutOk = true)
    (h3 : env.setSendTimeoutOk = true) (h4 : env.dialOk = true) :
    (SocketWrapper.connect (SocketWrapper.close s) url rt st env).2
      = Except.ok true
    ∧ SocketWrapper.is_connect
        (SocketWrapper.connect (SocketWrapper.close s) url rt st env).1 = true
    ∧ ((SocketWrapper.connect (SocketWrapper.close s) url rt st env).1).isClosing
        = (SocketWrapper.close s).isClosing := by
  obtain ⟨k, hk⟩ := Option.isSome_iff_exists.mp h1
  simp [SocketWrapper.connect, SocketWrapper.is_connect, hk, h2, h3, h4]

/-- Witness for C5 on the sample connected wrapper with the
all-successful environment. -/
theorem reconnect_after_close_witness :
    (goodEnv.newSocket.isSome = true ∧ goodEnv.setRecvTimeoutOk = true
      ∧ goodEnv.setSendTimeoutOk = true ∧ goodEnv.dialOk = true)
    ∧ ((SocketWrapper.connect (SocketWrapper.close connectedState)
          "u" 0 0 goodEnv).2 = Except.ok true
      ∧ SocketWrapper.is_connect
          (SocketWrapper.connect (SocketWrapper.close connectedState)
            "u" 0 0 goodEnv).1 = true
      ∧ ((SocketWrapper.connect (SocketWrapper.close connectedState)
            "u" 0 0 goodEnv).1).isClosing
          = (SocketWrapper.close connectedState).isClosing) :=
  ⟨⟨rfl, rfl, rfl, rfl⟩,
   reconnect_after_close connectedState "u" 0 0 goodEnv rfl rfl rfl rfl⟩

/-- C6: `send` on a wrapper without a socket fails with the
not-connected error and performs no transport call at all. -/
theorem send_not_connected (s : WrapperState) (message : List Nat)
    (env : SendEnv) (h : s.socket = none) :
    SocketWrapper.send s message env
      = (Except.error "Socket not connected", []) := by
  simp [SocketWrapper.send, h]

/-- Witness for C6 on a freshly constructed wrapper. -/
theorem send_not_connected_witness :
    SocketWrapper.new.socket = none
    ∧ SocketWrapper.send SocketWrapper.new [1, 2]
        (SendEnv.mk none (Except.ok []))
      = (Except.error "Socket not connected", []) :=
  ⟨rfl, send_not_connected SocketWrapper.new [1, 2]
    (SendEnv.mk none (Except.ok [])) rfl⟩

/-- C7: whenever `connect` returns an error — at socket allocation,
timeout-option application, or dial — the wrapper state is exactly what
it was before the call, so it remains not-connected when it was, and
the stored socket and url fields are untouched; a retry then starts
from the same state. -/
theorem connect_failure_state_unchanged (s : WrapperState) (url : String)
    (rt st : Nat) (env : ConnectEnv) (m : String)
    (h : (SocketWrapper.connect s url rt st env).2 = Except.error m) :
    (SocketWrapper.connect s url rt st env).1 = s := by
  unfold SocketWrapper.connect at h ⊢
  cases hk : env.newSocket with
  | none => simp [hk]
  | some k =>
      by_cases h1 : rt ≠ 0 ∧ env.setRecvTimeoutOk = false
      · simp [h1]
      · by_cases h2 : st ≠ 0 ∧ env.setSendTimeoutOk = false
        · simp [h1, h2]
        · by_cases h3 : env.dialOk = false
          · simp [h1, h2, h3]
          · rw [hk] at h
            simp [h1, h2, h3] at h

/-- Witness for C7 on a fresh wrapper with a failing dial. -/
theorem connect_failure_state_unchanged_witness :
    (SocketWrapper.connect SocketWrapper.new "u" 0 0 badDialEnv).2
      = Except.error "Connection failed"
    ∧ (SocketWrapper.connect SocketWrapper.new "u" 0 0 badDialEnv).1
      = SocketWrapper.new :=
  ⟨rfl, connect_failure_state_unchanged SocketWrapper.new "u" 0 0
    badDialEnv "Connection failed" rfl⟩

/-- C8: closing a wrapper that holds a socket leaves `is_connect`
false with the url cleared, and a second `close` is a no-op — it
returns the state unchanged (and, having no error channel, produces no
error). -/
theorem close_idempotent (s : WrapperState) (h : s.socket.isSome = true) :
    SocketWrapper.is_connect (SocketWrapper.close s) = false
    ∧ (SocketWrapper.close s).url = none
    ∧ SocketWrapper.close (SocketWrapper.close s) = SocketWrapper.close s
    ∧ SocketWrapper.is_connect
        (SocketWrapper.close (SocketWrapper.close s)) = false := by
  obtain ⟨k, hk⟩ := Option.isSome_iff_exists.mp h
  simp [SocketWrapper.close, SocketWrapper.is_connect, hk]

/-- Witness for C8 on the sample connected wrapper. -/
theorem close_idempotent_witness :
    connectedState.socket.isSome = true
    ∧ (SocketWrapper.is_connect (SocketWrapper.close connectedState) = false
      ∧ (SocketWrapper.close connectedState).url = none
      ∧ SocketWrapper.close (SocketWrapper.close connectedState)
          = SocketWrapper.close connectedState
      ∧ SocketWrapper.is_connect
          (SocketWrapper.close (SocketWrapper.close connectedState)) = false) :=
  ⟨by decide, close_idempotent connectedState (by decide)⟩

/-- C9: a receive timeout inside the loop only logs: the callback is
not invoked for that event, the loop does not exit, and processing
continues with the next iteration, whatever the `is_closing` flag
reads. -/
theorem timeout_not_fatal (c : Bool) (rest : List LoopIter) :
    runLoop (LoopIter.mk true c (RecvOutcome.err NngErr.timedOut) :: rest)
      = (LoopEvent.logTimeout :: (runLoop rest).1, (runLoop rest).2) := by
  simp [runLoop]

end NapiNbng

namespace NapiNbng

/-- C10 counterexample: a `close` on a never-connected wrapper finds no
socket and leaves `is_closing` false; after a later successful
`connect`, a receive loop started on that wrapper does not exit
silently at its first non-timeout (`closed`) receive error — it logs
the error and keeps looping. -/
theorem loop_after_noop_close_counterexample :
    ((SocketWrapper.connect (SocketWrapper.close SocketWrapper.new)
        "u" 0 0 goodEnv).1).isClosing = false
    ∧ runLoop [LoopIter.mk true
          ((SocketWrapper.connect (SocketWrapper.close SocketWrapper.new)
            "u" 0 0 goodEnv).1).isClosing
          (RecvOutcome.err NngErr.closed)]
        = ([LoopEvent.logError NngErr.closed], LoopExit.ranOut) := by
  constructor <;> rfl

/-- C10 amended: `connect` never writes `is_closing` and `close` sets
it exactly when it finds a live socket (so the flag, once true, is
never reset by any operation); consequently a loop whose error handler
reads `is_closing` true — as every loop started after a close that
found a live socket does — exits silently at its first non-timeout
receive error, delivering only the events of the benign iterations
before it. -/
theorem is_closing_monotone (s : WrapperState) (url : String) (rt st : Nat)
    (env : ConnectEnv) (pre : List LoopIter) (e : NngErr)
    (rest : List LoopIter)
    (he : e ≠ NngErr.timedOut)
    (hpre : ∀ it ∈ pre, it.receivingFlag = true ∧ benign it.outcome = true) :
    ((SocketWrapper.connect s url rt st env).1).isClosing = s.isClosing
    ∧ (SocketWrapper.close s).isClosing = (s.isClosing || s.socket.isSome)
    ∧ runLoop (pre ++ LoopIter.mk true true (RecvOutcome.err e) :: rest)
        = ((runLoop pre).1, LoopExit.silentExit) := by
  refine ⟨?_, ?_, ?_⟩
  · unfold SocketWrapper.connect
    cases hk : env.newSocket with
    | none => rfl
    | some k =>
        by_cases h1 : rt ≠ 0 ∧ env.setRecvTimeoutOk = false
        · simp [h1]
        · by_cases h2 : st ≠ 0 ∧ env.setSendTimeoutOk = false
          · simp [h1, h2]
          · by_cases h3 : env.dialOk = false
            · simp [h1, h2, h3]
            · simp [h1, h2, h3]
  · cases hk : s.socket with
    | none => simp [SocketWrapper.close, hk]
    | some k => simp [SocketWrapper.close, hk]
  · have hran := runLoop_ranOut_of_benign pre hpre
    rw [runLoop_append_of_ranOut _ _ hran]
    have hstep : runLoop (LoopIter.mk true true (RecvOutcome.err e) :: rest)
        = ([], LoopExit.silentExit) := by
      simp [runLoop, he]
    rw [hstep]
    simp

/-- Witness for C10 amended: a closed error after one delivered message
and one timeout, on the sample connected wrapper. -/
theorem is_closing_monotone_witness :
    (NngErr.closed ≠ NngErr.timedOut
      ∧ ∀ it ∈ [LoopIter.mk true true (RecvOutcome.msg [3]),
            LoopIter.mk true true (RecvOutcome.err NngErr.timedOut)],
          it.receivingFlag = true ∧ benign it.outcome = true)
    ∧ (((SocketWrapper.connect connectedState "u" 0 0 goodEnv).1).isClosing
        = connectedState.isClosing
      ∧ (SocketWrapper.close connectedState).isClosing
        = (connectedState.isClosing || connectedState.socket.isSome)
      ∧ runLoop ([LoopIter.mk true true (RecvOutcome.msg [3]),
            LoopIter.mk true true (RecvOutcome.err NngErr.timedOut)]
          ++ LoopIter.mk true true (RecvOutcome.err NngErr.closed) :: [])
        = ((runLoop [LoopIter.mk true true (RecvOutcome.msg [3]),
            LoopIter.mk true true (RecvOutcome.err NngErr.timedOut)]).1,
           LoopExit.silentExit)) :=
  ⟨⟨by decide, by decide⟩,
   is_closing_monotone connectedState "u" 0 0 goodEnv
     [LoopIter.mk true true (RecvOutcome.msg [3]),
      LoopIter.mk true true (RecvOutcome.err NngErr.timedOut)]
     NngErr.closed [] (by decide) (by decide)⟩

end NapiNbng
